import Mathlib

/-!
Verification of the xhs-scraper repository against its specification.

The development shallowly embeds the three source files:
  * `scraper.py`    — URL recognition (`extract_xhs_url`) and the extraction
    pipeline (`scrape_xhs`), modelled in namespace `Scraper`;
  * `xhs_scraper.py` — the second extraction pipeline and the command-line
    entry point, modelled in namespace `XhsScraper`;
  * `main.py`       — the FastAPI wrapper (`scrape_content`), modelled in
    namespace `Main`.

Strings are modelled as `List Char` (Python strings are sequences of code
points).  Regular-expression uses in the source are embedded as direct
matching functions that follow the concrete pattern of each regex, with the
same anchoring, greediness and backtracking behaviour.  Python exceptions
are modelled explicitly: `Except Unit` is used where an exception can
escape, and the `try/except` block of the structured tier distinguishes
the caught exception classes (`json.JSONDecodeError`, `AttributeError`,
`KeyError`) from uncaught ones (`TypeError`).
-/

set_option maxRecDepth 100000

/-- Python strings are sequences of code points; we model them as `List Char`. -/
abbrev Str := List Char

/-- Code points of a Lean string literal, used to write concrete Python strings. -/
def chars (s : String) : Str := s.data

/-- Model of Python's whitespace class `\s` / `str.strip` default set
(the ASCII whitespace characters; the exotic Unicode space code points,
which none of the analysed inputs contain, are not modelled). -/
def pySpaceChar (c : Char) : Bool :=
  c = ' ' || c = '\t' || c = '\n' || c = '\r' || c = '\x0b' || c = '\x0c'

/-- `\S` of the Python regexes: a non-whitespace character. -/
def nonspace (c : Char) : Bool := !(pySpaceChar c)

/-- Model of Python's `str.strip()`: drop whitespace from both ends. -/
def pyStrip (s : Str) : Str :=
  ((s.dropWhile pySpaceChar).reverse.dropWhile pySpaceChar).reverse

/-- Consume the literal `lit` from the front of `s`; return the rest on success. -/
def dropLit : Str → Str → Option Str
  | [], s => some s
  | _ :: _, [] => none
  | a :: la, b :: sb => if a = b then dropLit la sb else none

/-- Case-insensitive variant of `dropLit`, for regexes compiled with
`re.IGNORECASE`. -/
def dropLitCI : Str → Str → Option Str
  | [], s => some s
  | _ :: _, [] => none
  | a :: la, b :: sb => if a.toLower = b.toLower then dropLitCI la sb else none

/-- Whether `small` occurs as a contiguous substring of `s`
(Python's `small in s`). -/
def containsL : Str → Str → Bool
  | _, [] => false
  | small, c :: rest =>
    (match dropLit small (c :: rest) with
     | some _ => true
     | none => false) || containsL small rest

/-- `containsL` misses the empty-string-at-end case, so give Python's
`sub in s` in full: the empty string is a substring of everything. -/
def pyIn (sub s : Str) : Bool :=
  match sub with
  | [] => true
  | _ :: _ => containsL sub s

/-- Python's `s.startswith(p)`. -/
def startsWithL (p s : Str) : Bool :=
  match dropLit p s with
  | some _ => true
  | none => false

/-- Python's `s.endswith(p)` on code-point lists. -/
def endsWithL (p s : Str) : Bool :=
  decide (p = s.drop (s.length - p.length)) && decide (p.length ≤ s.length)

namespace Scraper

/-- Match of `https?://xhslink\.com/\S+` anchored at the head of `s`
(greedy `\S+`), returning the matched substring — the regex of
`scraper.py` line 19 (tier 1 of `extract_xhs_url`). -/
def xhslinkAt (s : Str) : Option Str :=
  match dropLit (chars "https://xhslink.com/") s with
  | some r =>
    let tok := r.takeWhile nonspace
    if tok = [] then none else some (chars "https://xhslink.com/" ++ tok)
  | none =>
    match dropLit (chars "http://xhslink.com/") s with
    | some r =>
      let tok := r.takeWhile nonspace
      if tok = [] then none else some (chars "http://xhslink.com/" ++ tok)
    | none => none

/-- `re.search` of the xhslink pattern: leftmost match over the whole input. -/
def searchXhslink : Str → Option Str
  | [] => none
  | c :: rest =>
    match xhslinkAt (c :: rest) with
    | some m => some m
    | none => searchXhslink rest

/-- The `(explore|discovery/item)/\S+` tail of the canonical-URL regex
(`scraper.py` line 24). -/
def pathTail (r : Str) : Bool :=
  (match dropLit (chars "explore/") r with
   | some t => !(t.takeWhile nonspace).isEmpty
   | none => false)
  || (match dropLit (chars "discovery/item/") r with
      | some t => !(t.takeWhile nonspace).isEmpty
      | none => false)

/-- The `xiaohongshu\.com/…` part of the canonical-URL regex. -/
def hostTail (r : Str) : Bool :=
  match dropLit (chars "xiaohongshu.com/") r with
  | some t => pathTail t
  | none => false

/-- The `(www\.)?xiaohongshu\.com/…` part (optional group, backtracking). -/
def afterScheme (r : Str) : Bool :=
  (match dropLit (chars "www.") r with
   | some t => hostTail t
   | none => false) || hostTail r

/-- `re.search(r"^https?://(www\.)?xiaohongshu\.com/(explore|discovery/item)/\S+", text)`:
anchored at the start by `^`, but with NO end anchor — a prefix test. -/
def canonicalAt (s : Str) : Bool :=
  (match dropLit (chars "https://") s with
   | some r => afterScheme r
   | none => false)
  || (match dropLit (chars "http://") s with
      | some r => afterScheme r
      | none => false)

/-- `extract_xhs_url` of `scraper.py` (lines 7–27): first search for an
xhslink.com short link anywhere in the text and return the matched
substring; otherwise return the whole input if the canonical pattern
matches at its start; otherwise nothing. -/
def extract_xhs_url (text : Str) : Option Str :=
  match searchXhslink text with
  | some u => some u
  | none => if canonicalAt text then some text else none

end Scraper

namespace XhsScraper

/-- The `\\S+` tail of the CLI regex (`xhs_scraper.py` line 162).  The
pattern string is a raw string containing doubled backslashes, so the
regex engine sees `\\` (a literal backslash) followed by `S+` (one or
more literal `S` characters). -/
def cliSTail (r : Str) : Bool :=
  match r with
  | bs :: rest => bs = '\\' && !((rest.takeWhile (fun c => c = 'S')).isEmpty)
  | [] => false

/-- `(explore|discovery/item)/\\S+` of the CLI regex. -/
def cliPathTail (r : Str) : Bool :=
  (match dropLit (chars "explore/") r with
   | some t => cliSTail t
   | none => false)
  || (match dropLit (chars "discovery/item/") r with
      | some t => cliSTail t
      | none => false)

/-- `xiaohongshu\\.com/…` of the CLI regex: the engine sees the literal
`xiaohongshu`, a literal backslash (`\\`), then `.` — any character other
than a newline — then `com/`. -/
def cliHostTail (r : Str) : Bool :=
  match dropLit (chars "xiaohongshu") r with
  | some t =>
    match t with
    | bs :: any :: t2 =>
      if bs = '\\' && !(any = '\n') then
        match dropLit (chars "com/") t2 with
        | some t3 => cliPathTail t3
        | none => false
      else false
    | _ => false
  | none => false

/-- `(www\\.)?…` of the CLI regex: optionally `www`, a literal backslash,
then any character; backtracking to the no-`www` branch. -/
def cliAfterScheme (r : Str) : Bool :=
  (match r with
   | 'w' :: 'w' :: 'w' :: bs :: any :: t =>
     if bs = '\\' && !(any = '\n') then cliHostTail t else false
   | _ => false)
  || cliHostTail r

/-- The CLI's canonical-URL test,
`re.search(r"^https?://(www\\.)?xiaohongshu\\.com/(explore|discovery/item)/\\S+", raw_input)`
(`xhs_scraper.py` line 162).  Because the doubled backslashes stand inside a
raw string, the engine matches literal backslash characters. -/
def cliCanonicalAt (s : Str) : Bool :=
  (match dropLit (chars "https://") s with
   | some r => cliAfterScheme r
   | none => false)
  || (match dropLit (chars "http://") s with
      | some r => cliAfterScheme r
      | none => false)

/-- The URL-recognition phase of the `__main__` block of `xhs_scraper.py`
(lines 153–169): the same xhslink search as `extract_xhs_url`, then the
CLI's canonical test; `none` models `sys.exit(1)`. -/
def cliRecognize (text : Str) : Option Str :=
  match Scraper.searchXhslink text with
  | some u => some u
  | none => if cliCanonicalAt text then some text else none

end XhsScraper

/-! ## JSON values

Model of the Python values produced by `json.loads`: `None`, booleans,
numbers, strings, lists and dicts.  Arrays and objects are given their own
mutually inductive list types so that decidable equality can be derived. -/

mutual
/-- A decoded JSON value (a Python object as returned by `json.loads`).
Numbers are modelled on the integer fragment; the analysed pipelines never
depend on float values. -/
inductive Json where
  | jnull
  | jbool (b : Bool)
  | jnum (n : Int)
  | jstr (s : Str)
  | jarr (xs : JArr)
  | jobj (kvs : JObj)
deriving DecidableEq, Repr

/-- A JSON array (Python list) of `Json` values. -/
inductive JArr where
  | nil
  | cons (hd : Json) (tl : JArr)
deriving DecidableEq, Repr

/-- A JSON object (Python dict): key/value pairs in insertion order. -/
inductive JObj where
  | nil
  | cons (k : Str) (v : Json) (tl : JObj)
deriving DecidableEq, Repr
end

/-- Elements of a JSON array as a Lean list. -/
def JArr.toList : JArr → List Json
  | .nil => []
  | .cons h t => h :: t.toList

/-- Keys of a JSON object in order. -/
def JObj.keys : JObj → List Str
  | .nil => []
  | .cons k _ t => k :: t.keys

/-- Dict lookup with Python semantics: `json.loads` builds a `dict`, in which
a later duplicate key overwrites an earlier one, so the LAST binding wins. -/
def JObj.lookupLast : JObj → Str → Option Json
  | .nil, _ => none
  | .cons k0 v0 tl, k =>
    match tl.lookupLast k with
    | some v => some v
    | none => if k0 = k then some v0 else none

/-- Python truthiness of a decoded JSON value (`bool(x)`). -/
def jtruthy : Json → Bool
  | .jnull => false
  | .jbool b => b
  | .jnum n => decide (n ≠ 0)
  | .jstr s => !s.isEmpty
  | .jarr xs => !(xs.toList.isEmpty)
  | .jobj kvs => !(kvs.keys.isEmpty)

/-- Python truthiness of `dict.get(k)`’s result, where absence is `None`. -/
def jtruthyO : Option Json → Bool
  | none => false
  | some v => jtruthy v

/-- The empty Python string `''`, the default used all over the pipelines. -/
def jempty : Json := Json.jstr []

/-- `x.get(k)` on a Python value: succeeds on dicts, raises
`AttributeError` (modelled as `.error ()`) on any non-dict. -/
def pyGet (x : Json) (k : Str) : Except Unit (Option Json) :=
  match x with
  | .jobj kvs => .ok (kvs.lookupLast k)
  | _ => .error ()

/-- `x.get(k, d)` on a Python value, with default `d`. -/
def pyGetD (x : Json) (k : Str) (d : Json) : Except Unit Json :=
  match x with
  | .jobj kvs => .ok ((kvs.lookupLast k).getD d)
  | _ => .error ()

/-! ## Model of `json.loads`

A recursive-descent parser on the integer/string/array/object fragment of
JSON, with `json.loads`'s token whitespace, escape handling and strict
string rules.  Float literals are not modelled (parsing fails on them);
no analysed behaviour depends on a float payload. -/

/-- JSON token whitespace (`json.loads` skips exactly `' '`, `'\t'`,
`'\n'`, `'\r'` between tokens). -/
def jsonWSChar (c : Char) : Bool :=
  c = ' ' || c = '\t' || c = '\n' || c = '\r'

/-- Skip JSON token whitespace. -/
def jsonWS (s : Str) : Str := s.dropWhile jsonWSChar

/-- Value of a hexadecimal digit. -/
def hexVal (c : Char) : Option Nat :=
  if '0' ≤ c ∧ c ≤ '9' then some (c.toNat - '0'.toNat)
  else if 'a' ≤ c ∧ c ≤ 'f' then some (c.toNat - 'a'.toNat + 10)
  else if 'A' ≤ c ∧ c ≤ 'F' then some (c.toNat - 'A'.toNat + 10)
  else none

/-- Parse the body of a JSON string after the opening quote, handling the
escape sequences accepted by `json.loads`.  Control characters below
`0x20` are rejected (strict mode).  `\uXXXX` maps through `Char.ofNat`
(surrogate code units, which cannot inhabit `Char`, fall to `'\x00'`;
none of the analysed inputs contain them). -/
def parseStrBody : Nat → Str → Option (Str × Str)
  | 0, _ => none
  | _ + 1, [] => none
  | fuel + 1, c :: rest =>
    if c = '"' then some ([], rest)
    else if c = '\\' then
      match rest with
      | [] => none
      | e :: rest2 =>
        let dec : Option (Char × Str) :=
          if e = '"' then some ('"', rest2)
          else if e = '\\' then some ('\\', rest2)
          else if e = '/' then some ('/', rest2)
          else if e = 'b' then some ('\x08', rest2)
          else if e = 'f' then some ('\x0c', rest2)
          else if e = 'n' then some ('\n', rest2)
          else if e = 'r' then some ('\r', rest2)
          else if e = 't' then some ('\t', rest2)
          else if e = 'u' then
            match rest2 with
            | h1 :: h2 :: h3 :: h4 :: rest3 =>
              match hexVal h1, hexVal h2, hexVal h3, hexVal h4 with
              | some a, some b, some c3, some d =>
                some (Char.ofNat (((a * 16 + b) * 16 + c3) * 16 + d), rest3)
              | _, _, _, _ => none
            | _ => none
          else none
        match dec with
        | some (ch, rest3) =>
          match parseStrBody fuel rest3 with
          | some (tl, rem) => some (ch :: tl, rem)
          | none => none
        | none => none
    else if c.toNat < 32 then none
    else
      match parseStrBody fuel rest with
      | some (tl, rem) => some (c :: tl, rem)
      | none => none

/-- Digit run of a JSON integer: `0` alone, or a nonzero digit followed by
digits (JSON forbids leading zeros). -/
def parseDigits (s : Str) : Option (Nat × Str) :=
  match s with
  | [] => none
  | c :: rest =>
    if c = '0' then some (0, rest)
    else if c.isDigit then
      let ds := rest.takeWhile Char.isDigit
      let rem := rest.dropWhile Char.isDigit
      some ((c :: ds).foldl (fun a d => a * 10 + (d.toNat - '0'.toNat)) 0, rem)
    else none

mutual
/-- Parse one JSON value (fuel-indexed recursive descent). -/
def parseVal : Nat → Str → Option (Json × Str)
  | 0, _ => none
  | fuel + 1, s =>
    match jsonWS s with
    | [] => none
    | c :: rest =>
      if c = 'n' then
        match dropLit (chars "ull") rest with
        | some r => some (.jnull, r)
        | none => none
      else if c = 't' then
        match dropLit (chars "rue") rest with
        | some r => some (.jbool true, r)
        | none => none
      else if c = 'f' then
        match dropLit (chars "alse") rest with
        | some r => some (.jbool false, r)
        | none => none
      else if c = '"' then
        match parseStrBody (rest.length + 1) rest with
        | some (body, r) => some (.jstr body, r)
        | none => none
      else if c = '-' then
        match parseDigits rest with
        | some (n, r) => some (.jnum (-(n : Int)), r)
        | none => none
      else if c.isDigit then
        match parseDigits (c :: rest) with
        | some (n, r) => some (.jnum (n : Int), r)
        | none => none
      else if c = '[' then
        match jsonWS rest with
        | ']' :: r => some (.jarr .nil, r)
        | r2 =>
          match parseArrItems fuel r2 with
          | some (xs, r) => some (.jarr xs, r)
          | none => none
      else if c = '{' then
        match jsonWS rest with
        | '}' :: r => some (.jobj .nil, r)
        | r2 =>
          match parseObjItems fuel r2 with
          | some (kvs, r) => some (.jobj kvs, r)
          | none => none
      else none

/-- Parse the comma-separated items of a non-empty JSON array, up to and
including the closing bracket. -/
def parseArrItems : Nat → Str → Option (JArr × Str)
  | 0, _ => none
  | fuel + 1, s =>
    match parseVal fuel s with
    | some (v, r) =>
      (match jsonWS r with
       | ',' :: r2 =>
         match parseArrItems fuel r2 with
         | some (tl, r3) => some (.cons v tl, r3)
         | none => none
       | ']' :: r2 => some (.cons v .nil, r2)
       | _ => none)
    | none => none

/-- Parse the comma-separated members of a non-empty JSON object, up to and
including the closing brace. -/
def parseObjItems : Nat → Str → Option (JObj × Str)
  | 0, _ => none
  | fuel + 1, s =>
    match jsonWS s with
    | '"' :: r =>
      (match parseStrBody (r.length + 1) r with
       | some (k, r2) =>
         (match jsonWS r2 with
          | ':' :: r3 =>
            (match parseVal fuel r3 with
             | some (v, r4) =>
               (match jsonWS r4 with
                | ',' :: r5 =>
                  match parseObjItems fuel r5 with
                  | some (tl, r6) => some (.cons k v tl, r6)
                  | none => none
                | '}' :: r5 => some (.cons k v .nil, r5)
                | _ => none)
             | none => none)
          | _ => none)
       | none => none)
    | _ => none
end

/-- Model of `json.loads`: parse one value and require only whitespace to
remain. -/
def json_loads (s : Str) : Option Json :=
  match parseVal (2 * s.length + 4) s with
  | some (j, r) => if jsonWS r = [] then some j else none
  | none => none

/-! ## The embedded state blob

Both pipelines locate a `<script>` whose text matches
`window\.__INITIAL_STATE__\s*=` (case-sensitive), then extract the JSON
object literal with
`re.search(r'window\.__INITIAL_STATE__\s*=\s*({.*?});?\s*\(function', …, re.DOTALL | re.IGNORECASE)`. -/

/-- Match of `window\.__INITIAL_STATE__\s*=` at the head of `s`
(case-sensitive; the filter regex of `soup.find('script', string=…)`). -/
def initMarkAt (s : Str) : Bool :=
  match dropLit (chars "window.__INITIAL_STATE__") s with
  | some r =>
    (match r.dropWhile pySpaceChar with
     | '=' :: _ => true
     | _ => false)
  | none => false

/-- `re.search` of the marker pattern anywhere in a script's text. -/
def searchInitMark : Str → Bool
  | [] => false
  | c :: rest => initMarkAt (c :: rest) || searchInitMark rest

/-- `soup.find('script', string=re.compile(r'window\.__INITIAL_STATE__\s*='))`:
the text of the first script block whose text matches. -/
def findInitScript : List Str → Option Str
  | [] => none
  | s :: rest => if searchInitMark s then some s else findInitScript rest

/-- The `;?\s*\(function` tail of the blob regex after the closing brace
(`;?` then greedy `\s*` then the literal, case-insensitively). -/
def fnTail (r : Str) : Bool :=
  let r1 := match r with
    | ';' :: t => t
    | _ => r
  match dropLitCI (chars "(function") (r1.dropWhile pySpaceChar) with
  | some _ => true
  | none => false

/-- Non-greedy scan for `.*?` inside `({.*?})` under `re.DOTALL`: find the
shortest middle such that the next character is the closing brace and the
rest matches `;?\s*\(function`; return that middle. -/
def scanClose : Str → Option Str
  | [] => none
  | c :: rest =>
    if c = '}' && fnTail rest then some []
    else
      match scanClose rest with
      | some mid => some (c :: mid)
      | none => none

/-- Match of the full blob regex at the head of `s`
(case-insensitive marker, `\s*=\s*`, then the braced group), returning
capture group 1 — the JSON object literal including its braces. -/
def stateJsonAt (s : Str) : Option Str :=
  match dropLitCI (chars "window.__INITIAL_STATE__") s with
  | none => none
  | some r =>
    match r.dropWhile pySpaceChar with
    | '=' :: r2 =>
      (match r2.dropWhile pySpaceChar with
       | '{' :: r3 =>
         (match scanClose r3 with
          | some mid => some ('{' :: (mid ++ ['}']))
          | none => none)
       | _ => none)
    | _ => none

/-- `re.search` of the blob regex: leftmost position at which the full
pattern matches, returning group 1. -/
def extractStateJson : Str → Option Str
  | [] => none
  | c :: rest =>
    match stateJsonAt (c :: rest) with
    | some j => some j
    | none => extractStateJson rest

/-! ## Documents

Per the spec's data model, a `RawDocument` is markup text together with
on-demand views: script blocks, the `<title>`/`<h1>` texts, meta tags,
link tags and img tags.  We embed the document at the level of these
views (the output of the `html.parser`-backed BeautifulSoup queries the
two pipelines perform); tag attributes are name/value pairs. -/

/-- An HTML tag as the pipelines see it: its attributes. -/
structure HTag where
  attrs : List (Str × Str)
deriving DecidableEq, Repr

/-- `tag.get(name)`: first binding of the attribute, if present. -/
def tagGet (t : HTag) (k : Str) : Option Str :=
  match t.attrs.find? (fun kv => kv.fst = k) with
  | some kv => some kv.snd
  | none => none

/-- A parsed document: the views both pipelines query, in document order.
`titleText`/`h1Text` are the `.text` of the first such tag;
`descDivText` is the `get_text('\n', strip=True)` of the first `<div>`
whose `class` matches `(desc|content|text)`, when such a div exists. -/
structure RawDocument where
  scripts : List Str
  titleText : Option Str
  h1Text : Option Str
  metas : List HTag
  links : List HTag
  imgs : List HTag
  descDivText : Option Str
deriving DecidableEq, Repr

/-- `soup.find_all('meta', attrs={k: v})`. -/
def metasWith (doc : RawDocument) (k v : Str) : List HTag :=
  doc.metas.filter (fun t => tagGet t k = some v)

/-- `soup.find_all('link', attrs={'rel': 'preload', 'as': 'image'})`. -/
def preloadLinks (doc : RawDocument) : List HTag :=
  doc.links.filter (fun t =>
    decide (tagGet t (chars "rel") = some (chars "preload")) &&
    decide (tagGet t (chars "as") = some (chars "image")))

/-! ## The structured-data tier

The `try:` block shared verbatim by `scraper.py` (lines 57–71) and
`xhs_scraper.py` (lines 42–64).  Its `except` clause catches
`json.JSONDecodeError`, `AttributeError` and `KeyError` only; a
`TypeError` — raised by `for img in images_list` when `imageList` decodes
to a non-iterable value — escapes the function. -/

/-- Outcome of the structured-data `try:` block: either the values of the
`title`, `body`, `image_urls` variables after the block (a caught
exception leaves the values assigned so far), or an uncaught exception. -/
inductive StructOut where
  | crash
  | fields (t b : Json) (imgs : List Json)
deriving DecidableEq, Repr

/-- `json_data.get('note', {}).get('noteDetailMap', {}).get('default', {}).get('note', {})`:
chained dict lookups; an intermediate non-dict raises `AttributeError`. -/
def notePathE (j : Json) : Except Unit Json :=
  match pyGetD j (chars "note") (Json.jobj .nil) with
  | .error e => .error e
  | .ok a =>
    match pyGetD a (chars "noteDetailMap") (Json.jobj .nil) with
    | .error e => .error e
    | .ok b =>
      match pyGetD b (chars "default") (Json.jobj .nil) with
      | .error e => .error e
      | .ok c =>
        pyGetD c (chars "note") (Json.jobj .nil)

/-- Python iteration over the decoded `imageList` value: lists iterate
their elements, strings their characters (as 1-character strings), dicts
their keys; `None`, booleans and numbers raise `TypeError`. -/
def iterElems (j : Json) : Except Unit (List Json) :=
  match j with
  | .jarr xs => .ok xs.toList
  | .jstr cs => .ok (cs.map (fun c => Json.jstr [c]))
  | .jobj kvs => .ok (kvs.keys.map (fun k => Json.jstr k))
  | _ => .error ()

/-- The list comprehension
`[img.get('url_default', '') or img.get('url', '') for img in images_list if img.get('url_default') or img.get('url')]`:
an `AttributeError` raised on a non-dict element aborts the whole
comprehension (so `image_urls` is never assigned). -/
def imgComp : List Json → Except Unit (List Json)
  | [] => .ok []
  | img :: rest =>
    match pyGet img (chars "url_default") with
    | .error e => .error e
    | .ok ud =>
      match pyGet img (chars "url") with
      | .error e => .error e
      | .ok u =>
        if jtruthyO ud || jtruthyO u then
          match pyGetD img (chars "url_default") jempty with
          | .error e => .error e
          | .ok v1 =>
            match pyGetD img (chars "url") jempty with
            | .error e => .error e
            | .ok v2 =>
              match imgComp rest with
              | .error e => .error e
              | .ok tl => .ok ((if jtruthy v1 then v1 else v2) :: tl)
        else imgComp rest

/-- The structured-data tier (`scraper.py` lines 57–71, identically
`xhs_scraper.py` lines 40–64): locate the state script, extract and parse
the blob, then read `title`, `desc` and `imageList`.  Caught exceptions
leave the variables assigned so far; an uncaught `TypeError` is `.crash`. -/
def structuredTier (scripts : List Str) : StructOut :=
  match findInitScript scripts with
  | none => .fields jempty jempty []
  | some s =>
    match extractStateJson s with
    | none => .fields jempty jempty []
    | some payload =>
      match json_loads payload with
      | none => .fields jempty jempty []
      | some j =>
        match notePathE j with
        | .error _ => .fields jempty jempty []
        | .ok nd =>
          match pyGetD nd (chars "title") jempty with
          | .error _ => .fields jempty jempty []
          | .ok t =>
            match pyGetD nd (chars "desc") jempty with
            | .error _ => .fields t jempty []
            | .ok b =>
              match pyGetD nd (chars "imageList") (Json.jarr .nil) with
              | .error _ => .fields t b []
              | .ok il =>
                match iterElems il with
                | .error _ => .crash
                | .ok elems =>
                  match imgComp elems with
                  | .error _ => .fields t b []
                  | .ok imgs => .fields t b (imgs.filter jtruthy)

/-! ## The two extraction pipelines -/

/-- The record both pipelines return: `{'title': …, 'body': …, 'image_urls': …}`.
Field values are Python values (`Json`); HTML-derived strings appear as
`Json.jstr`. -/
structure ExtractionResult where
  title : Json
  body : Json
  image_urls : List Json
deriving DecidableEq, Repr

/-- Decidable equality for `Except` outcomes, so concrete pipeline runs can
be settled by `decide`. -/
instance {α β : Type} [DecidableEq α] [DecidableEq β] : DecidableEq (Except α β) := fun a b =>
  match a, b with
  | .ok x, .ok y =>
    if h : x = y then isTrue (by rw [h]) else isFalse (fun hh => h (Except.ok.inj hh))
  | .error x, .error y =>
    if h : x = y then isTrue (by rw [h]) else isFalse (fun hh => h (Except.error.inj hh))
  | .ok _, .error _ => isFalse (fun hh => Except.noConfusion hh)
  | .error _, .ok _ => isFalse (fun hh => Except.noConfusion hh)

/-- The localized title suffix `" - 小红书"` stripped by the title fallback. -/
def xhsSuffix : Str := chars " - 小红书"

/-- The `<title>` fallback shared by both pipelines: strip the text, and if
it ends with the localized suffix, cut the suffix and strip again. -/
def titleFromTag (tt : Str) : Str :=
  let full := pyStrip tt
  if endsWithL xhsSuffix full then pyStrip (full.take (full.length - xhsSuffix.length))
  else full

/-- The `<meta name="description">` fallback shared by both pipelines:
the stripped `content` of the first such tag, provided the tag exists and
its `content` is truthy. -/
def bodyFromMeta (doc : RawDocument) : Option Str :=
  match (metasWith doc (chars "name") (chars "description")).head? with
  | some m =>
    (match tagGet m (chars "content") with
     | some c => if c = [] then none else some (pyStrip c)
     | none => none)
  | none => none

namespace Scraper

/-- The Open Graph tag query of `scraper.py` (lines 91–92):
`find_all(name='og:image') or find_all(property='og:image')`. -/
def ogTags (doc : RawDocument) : List HTag :=
  let byName := metasWith doc (chars "name") (chars "og:image")
  if byName = [] then metasWith doc (chars "property") (chars "og:image") else byName

/-- The image fallback of `scraper.py` (lines 89–99): contents of the
Open Graph tags (no de-duplication), or else preload-link hrefs, keeping
truthy values only. -/
def imagesFB (doc : RawDocument) : List Json :=
  let ogs := ogTags doc
  if ogs = [] then
    (preloadLinks doc).filterMap (fun t =>
      match tagGet t (chars "href") with
      | some h => if h = [] then none else some (Json.jstr h)
      | none => none)
  else
    ogs.filterMap (fun t =>
      match tagGet t (chars "content") with
      | some c => if c = [] then none else some (Json.jstr c)
      | none => none)

/-- The HTML-tier title of `scraper.py`: the first `<title>`'s processed
text when such a tag exists; the prior value otherwise. -/
def htmlTitle (doc : RawDocument) : Json :=
  match doc.titleText with
  | some tt => Json.jstr (titleFromTag tt)
  | none => jempty

/-- The HTML-tier body of `scraper.py`: the description meta value when
available. -/
def htmlBody (doc : RawDocument) : Json :=
  match bodyFromMeta doc with
  | some b => Json.jstr b
  | none => jempty

/-- The result `scrape_xhs` of `scraper.py` produces when the structured
tier contributes nothing at all: every field from the HTML tiers. -/
def htmlOnly (doc : RawDocument) : ExtractionResult :=
  { title := htmlTitle doc, body := htmlBody doc, image_urls := imagesFB doc }

/-- The extraction part of `scrape_xhs` in `scraper.py` (lines 51–105):
the structured tier, then per-field HTML fallbacks.  `.error ()` models an
uncaught exception escaping the function. -/
def extract (doc : RawDocument) : Except Unit ExtractionResult :=
  match structuredTier doc.scripts with
  | .crash => .error ()
  | .fields t0 b0 i0 =>
    let t1 := if jtruthy t0 then t0 else
      match doc.titleText with
      | some tt => Json.jstr (titleFromTag tt)
      | none => t0
    let b1 := if jtruthy b0 then b0 else
      match bodyFromMeta doc with
      | some b => Json.jstr b
      | none => b0
    let i1 := if i0 = [] then imagesFB doc else i0
    .ok { title := t1, body := b1, image_urls := i1 }

/-- Outcome of the full `scrape_xhs` call: `None` on a fetch failure, the
extracted record otherwise, or an uncaught exception. -/
inductive ScrapeOut where
  | fetchFail
  | crash
  | result (r : ExtractionResult)
deriving DecidableEq, Repr

/-- `scrape_xhs` of `scraper.py` (lines 29–105), with the HTTP layer
abstracted as a fetch function returning the parsed document or a
request failure. -/
def scrape_xhs (fetch : Str → Option RawDocument) (url : Str) : ScrapeOut :=
  match fetch url with
  | none => .fetchFail
  | some doc =>
    match extract doc with
    | .error _ => .crash
    | .ok r => .result r

end Scraper

namespace XhsScraper

/-- The Open Graph collection loop of `xhs_scraper.py` (lines 102–106):
append each truthy `content` not already collected (first-occurrence
de-duplication). -/
def ogCollect : List HTag → List Json → List Json
  | [], acc => acc
  | t :: rest, acc =>
    match tagGet t (chars "content") with
    | some c =>
      if c = [] then ogCollect rest acc
      else if Json.jstr c ∈ acc then ogCollect rest acc
      else ogCollect rest (acc ++ [Json.jstr c])
    | none => ogCollect rest acc

/-- The preload-link collection loop (lines 110–114): append each truthy
`href` not already collected. -/
def linkCollect : List HTag → List Json → List Json
  | [], acc => acc
  | t :: rest, acc =>
    match tagGet t (chars "href") with
    | some h =>
      if h = [] then linkCollect rest acc
      else if Json.jstr h ∈ acc then linkCollect rest acc
      else linkCollect rest (acc ++ [Json.jstr h])
    | none => linkCollect rest acc

/-- `img.get('src') or img.get('data-src')`: the first truthy of the two,
with the raw second value when the first is falsy. -/
def srcOf (t : HTag) : Option Str :=
  match tagGet t (chars "src") with
  | some v => if v = [] then tagGet t (chars "data-src") else some v
  | none => tagGet t (chars "data-src")

/-- Model of Python's `int(s)` on a string: strip whitespace, optional
sign, decimal digits; `none` models `ValueError`.  (Underscore separators
and non-ASCII digits, which Python also accepts, are not modelled; no
analysed behaviour depends on them.) -/
def pyIntOk (s : Str) : Option Int :=
  let t := pyStrip s
  match t with
  | '-' :: ds =>
    if ds ≠ [] ∧ ds.all Char.isDigit then
      some (-(ds.foldl (fun a d => a * 10 + (d.toNat - '0'.toNat)) 0 : Nat))
    else none
  | '+' :: ds =>
    if ds ≠ [] ∧ ds.all Char.isDigit then
      some ((ds.foldl (fun a d => a * 10 + (d.toNat - '0'.toNat)) 0 : Nat))
    else none
  | ds =>
    if ds ≠ [] ∧ ds.all Char.isDigit then
      some ((ds.foldl (fun a d => a * 10 + (d.toNat - '0'.toNat)) 0 : Nat))
    else none

/-- The size heuristic of the `<img>` fallback (lines 122–131): start from
`True`; a truthy `width` that parses as an int must exceed 50 (a
`ValueError` is passed over); then the same for `height`, checked only
when the flag is still true. -/
def likelyContent (t : HTag) : Bool :=
  let isl1 :=
    match tagGet t (chars "width") with
    | some w =>
      if w = [] then true
      else
        (match pyIntOk w with
         | some n => decide (n > 50)
         | none => true)
    | none => true
  match tagGet t (chars "height") with
  | some h =>
    if h = [] then isl1
    else if isl1 then
      (match pyIntOk h with
       | some n => decide (n > 50)
       | none => isl1)
    else isl1
  | none => isl1

/-- The `<img>` collection loop of `xhs_scraper.py` (lines 117–134):
a truthy `src`/`data-src` pointing at the site or any http URL, passing
the size heuristic, appended without duplicates. -/
def imgCollect : List HTag → List Json → List Json
  | [], acc => acc
  | t :: rest, acc =>
    match srcOf t with
    | some v =>
      if v ≠ [] ∧ (pyIn (chars "xiaohongshu.com") v || startsWithL (chars "http") v) = true then
        if likelyContent t ∧ Json.jstr v ∉ acc then imgCollect rest (acc ++ [Json.jstr v])
        else imgCollect rest acc
      else imgCollect rest acc
    | none => imgCollect rest acc

/-- The three-stage image fallback of `xhs_scraper.py` (lines 96–134):
Open Graph metas by `name` (or else by `property`), then preload links,
then `<img>` tags — each stage only when the previous produced nothing. -/
def imagesFB (doc : RawDocument) : List Json :=
  let byName := metasWith doc (chars "name") (chars "og:image")
  let ogs := if byName = [] then metasWith doc (chars "property") (chars "og:image") else byName
  let l1 := ogCollect ogs []
  let l2 := if l1 = [] then linkCollect (preloadLinks doc) [] else l1
  if l2 = [] then imgCollect doc.imgs [] else l2

/-- The HTML-tier title of `xhs_scraper.py`: the `<title>` text, or else
the first `<h1>`'s stripped text. -/
def htmlTitle (doc : RawDocument) : Json :=
  match doc.titleText with
  | some tt => Json.jstr (titleFromTag tt)
  | none =>
    match doc.h1Text with
    | some h => Json.jstr (pyStrip h)
    | none => jempty

/-- The HTML-tier body of `xhs_scraper.py`: the description meta value, or
else the text of the first div with a `(desc|content|text)` class. -/
def htmlBody (doc : RawDocument) : Json :=
  match bodyFromMeta doc with
  | some b => Json.jstr b
  | none =>
    match doc.descDivText with
    | some d => Json.jstr d
    | none => jempty

/-- The extraction part of `scrape_xhs` in `xhs_scraper.py` (lines 32–140). -/
def extract (doc : RawDocument) : Except Unit ExtractionResult :=
  match structuredTier doc.scripts with
  | .crash => .error ()
  | .fields t0 b0 i0 =>
    let t1 := if jtruthy t0 then t0 else
      match doc.titleText with
      | some tt => Json.jstr (titleFromTag tt)
      | none =>
        match doc.h1Text with
        | some h => Json.jstr (pyStrip h)
        | none => t0
    let b1 := if jtruthy b0 then b0 else
      match bodyFromMeta doc with
      | some b => Json.jstr b
      | none =>
        match doc.descDivText with
        | some d => Json.jstr d
        | none => b0
    let i1 := if i0 = [] then imagesFB doc else i0
    .ok { title := t1, body := b1, image_urls := i1 }

/-- `scrape_xhs` of `xhs_scraper.py` (lines 8–140), fetch abstracted. -/
def scrape_xhs (fetch : Str → Option RawDocument) (url : Str) : Scraper.ScrapeOut :=
  match fetch url with
  | none => .fetchFail
  | some doc =>
    match extract doc with
    | .error _ => .crash
    | .ok r => .result r

/-- Outcome of the CLI `__main__` block: exit with a non-zero code when no
URL is recognized, otherwise proceed to scrape. -/
inductive CliOut where
  | exitErr
  | ran (out : Scraper.ScrapeOut)
deriving DecidableEq, Repr

/-- The `__main__` block of `xhs_scraper.py` (lines 142–189): recognize
with the CLI rules, exit non-zero on failure, otherwise fetch and extract. -/
def cli_main (fetch : Str → Option RawDocument) (input : Str) : CliOut :=
  match cliRecognize input with
  | some u => .ran (scrape_xhs fetch u)
  | none => .exitErr

end XhsScraper

namespace Main

/-- Outcome of the `/scrape/` endpoint of `main.py`: `HTTPException(400)`
when no URL is recognized, `HTTPException(500)` when scraping returns
`None`, the structured response otherwise; an exception escaping
`scrape_xhs` propagates out of the handler (`crash`). -/
inductive ApiOut where
  | clientError
  | serverError
  | crash
  | success (r : ExtractionResult)
deriving DecidableEq, Repr

/-- `scrape_content` of `main.py` (lines 23–54): recognize, fetch, extract. -/
def scrape_content (fetch : Str → Option RawDocument) (input : Str) : ApiOut :=
  match Scraper.extract_xhs_url input with
  | none => .clientError
  | some url =>
    match Scraper.scrape_xhs fetch url with
    | .fetchFail => .serverError
    | .crash => .crash
    | .result r => .success r

end Main
/-! ## Concrete documents and values used by individual claims -/

/-- A canonical explore URL with the given token. -/
def canonU (tok : Str) : Str := chars "https://www.xiaohongshu.com/explore/" ++ tok

/-- A meta tag `<meta property="og:image" content="a">`. -/
def ogTagA : HTag := ⟨[(chars "property", chars "og:image"), (chars "content", chars "a")]⟩

/-- A state blob whose note has title `"T"`, desc `"D"` and
`imageList: ["x"]` — a list whose element is a string, not a mapping. -/
def scriptC2 : Str := chars "window.__INITIAL_STATE__ = \x7b\"note\":\x7b\"noteDetailMap\":\x7b\"default\":\x7b\"note\":\x7b\"title\":\"T\",\"desc\":\"D\",\"imageList\":[\"x\"]\x7d\x7d\x7d\x7d\x7d;(function f()\x7b\x7d)()"

/-- Document combining `scriptC2` with one Open Graph image tag. -/
def docC2 : RawDocument := ⟨[scriptC2], none, none, [ogTagA], [], [], none⟩

/-- A state blob whose payload is not valid JSON. -/
def scriptBad : Str := chars "window.__INITIAL_STATE__ = \x7bbad\x7d;(function"

/-- Document with a malformed blob and a `<title>` tag. -/
def docC2W : RawDocument := ⟨[scriptBad], some (chars "Foo - 小红书"), none, [], [], [], none⟩

/-- Document with no state blob and two identical `og:image` tags. -/
def docC3 : RawDocument := ⟨[], none, none, [ogTagA, ogTagA], [], [], none⟩

/-- Document with no blob, a `<title>` tag, and two identical `og:image` tags. -/
def docC3W : RawDocument := ⟨[], some (chars "Bar - 小红书"), none, [ogTagA, ogTagA], [], [], none⟩

/-- The decoded note record of claim C4:
`{title: T, desc: D, imageList: [{url_default: u1}, {url: u2}, {}]}`. -/
def c4note (T D u1 u2 : Str) : Json :=
  .jobj (.cons (chars "title") (.jstr T) (.cons (chars "desc") (.jstr D)
    (.cons (chars "imageList")
      (.jarr (.cons (.jobj (.cons (chars "url_default") (.jstr u1) .nil))
        (.cons (.jobj (.cons (chars "url") (.jstr u2) .nil))
          (.cons (.jobj .nil) .nil)))) .nil)))

/-- The full decoded state of claim C4, wrapping `c4note` under
`note.noteDetailMap.default.note`. -/
def c4state (T D u1 u2 : Str) : Json :=
  .jobj (.cons (chars "note") (.jobj (.cons (chars "noteDetailMap")
    (.jobj (.cons (chars "default") (.jobj (.cons (chars "note")
      (c4note T D u1 u2) .nil)) .nil)) .nil)) .nil)

/-- A concrete state blob realizing claim C4's scenario. -/
def scriptC4 : Str := chars "window.__INITIAL_STATE__ = \x7b\"note\":\x7b\"noteDetailMap\":\x7b\"default\":\x7b\"note\":\x7b\"title\":\"T\",\"desc\":\"D\",\"imageList\":[\x7b\"url_default\":\"u1\"\x7d,\x7b\"url\":\"u2\"\x7d,\x7b\x7d]\x7d\x7d\x7d\x7d\x7d;(function f()\x7b\x7d)()"

/-- A state blob whose note has `imageList: 5` — a non-iterable value. -/
def scriptC5 : Str := chars "window.__INITIAL_STATE__ = \x7b\"note\":\x7b\"noteDetailMap\":\x7b\"default\":\x7b\"note\":\x7b\"imageList\":5\x7d\x7d\x7d\x7d\x7d;(function f()\x7b\x7d)()"

/-- Document containing only `scriptC5`. -/
def docC5 : RawDocument := ⟨[scriptC5], none, none, [], [], [], none⟩

/-- A document with no content at all. -/
def emptyDoc : RawDocument := ⟨[], none, none, [], [], [], none⟩

/-- Document with no blob and duplicated `og:image` tags (claim C8). -/
def docC8 : RawDocument := ⟨[], none, none, [ogTagA, ogTagA], [], [], none⟩

/-- Document whose structured tier fully populates all three fields. -/
def docC8W : RawDocument := ⟨[scriptC4], some (chars "ignored"), none, [], [], [], none⟩

/-- Document with one `og:image` tag (claim C9 witness). -/
def docC9W : RawDocument := ⟨[], none, none, [ogTagA], [], [], none⟩

/-! ## General lemmas about the embedded matchers -/

theorem dropLit_append (l r : Str) : dropLit l (l ++ r) = some r := by
  induction l with
  | nil => rfl
  | cons a la ih => simp [dropLit, ih]

theorem dropLit_eq_some (l : Str) : ∀ s t : Str, dropLit l s = some t → s = l ++ t := by
  induction l with
  | nil => intro s t h; simp [dropLit] at h; simp [h]
  | cons a la ih =>
    intro s t h
    cases s with
    | nil => simp [dropLit] at h
    | cons b sb =>
      simp only [dropLit] at h
      by_cases hab : a = b
      · subst hab
        simp [ih sb t (by simpa using h)]
      · simp [if_neg hab] at h

/-- The matched substring of the xhslink regex starts the input it matched
at, and consists of non-whitespace characters. -/
theorem xhslinkAt_spec (s m : Str) (h : Scraper.xhslinkAt s = some m) :
    (∃ r, s = m ++ r) ∧ ∀ c ∈ m, nonspace c = true := by
  unfold Scraper.xhslinkAt at h
  split at h
  case h_1 r heq =>
    dsimp only [] at h
    split at h
    · exact absurd h (by simp)
    · have hm : chars "https://xhslink.com/" ++ r.takeWhile nonspace = m := by
        simpa using h
      subst hm
      refine ⟨⟨r.dropWhile nonspace, ?_⟩, ?_⟩
      · rw [dropLit_eq_some _ _ _ heq, List.append_assoc,
          List.takeWhile_append_dropWhile]
      · intro c hc
        rcases List.mem_append.mp hc with hc | hc
        · exact (by decide : ∀ x ∈ chars "https://xhslink.com/", nonspace x = true) c hc
        · exact List.mem_takeWhile_imp hc
  case h_2 _ =>
    split at h
    case h_1 r heq =>
      dsimp only [] at h
      split at h
      · exact absurd h (by simp)
      · have hm : chars "http://xhslink.com/" ++ r.takeWhile nonspace = m := by
          simpa using h
        subst hm
        refine ⟨⟨r.dropWhile nonspace, ?_⟩, ?_⟩
        · rw [dropLit_eq_some _ _ _ heq, List.append_assoc,
            List.takeWhile_append_dropWhile]
        · intro c hc
          rcases List.mem_append.mp hc with hc | hc
          · exact (by decide : ∀ x ∈ chars "http://xhslink.com/", nonspace x = true) c hc
          · exact List.mem_takeWhile_imp hc
    case h_2 _ => exact absurd h (by simp)

/-- A successful `searchXhslink` returns a contiguous substring of the
input made of non-whitespace characters. -/
theorem searchXhslink_spec (t m : Str) (h : Scraper.searchXhslink t = some m) :
    (∃ p s, t = p ++ m ++ s) ∧ ∀ c ∈ m, nonspace c = true := by
  induction t with
  | nil => simp [Scraper.searchXhslink] at h
  | cons c rest ih =>
    unfold Scraper.searchXhslink at h
    split at h
    case h_1 m' heq =>
      obtain ⟨⟨r, hr⟩, hns⟩ := xhslinkAt_spec _ _ heq
      have hm : m' = m := by simpa using h
      subst hm
      exact ⟨⟨[], r, by simpa using hr⟩, hns⟩
    case h_2 _ =>
      obtain ⟨⟨p, s, hps⟩, hns⟩ := ih h
      exact ⟨⟨c :: p, s, by simp [hps]⟩, hns⟩

/-- Helper for claim C1: the canonical-URL regex of `extract_xhs_url`
matches at the start of `canonU tok ++ suf` for any non-empty
non-whitespace token and ANY suffix, because the regex has no end anchor. -/
theorem canonicalAt_canonU (tok suf : Str) (h1 : tok ≠ [])
    (h2 : ∀ c ∈ tok, nonspace c = true) :
    Scraper.canonicalAt (canonU tok ++ suf) = true := by
  cases tok with
  | nil => exact absurd rfl h1
  | cons c cs =>
    have hc : nonspace c = true := h2 c (by simp)
    have e1 : canonU (c :: cs) ++ suf
        = chars "https://" ++ (chars "www." ++ (chars "xiaohongshu.com/" ++
            (chars "explore/" ++ (c :: (cs ++ suf))))) := by
      have e0 : chars "https://www.xiaohongshu.com/explore/"
          = chars "https://" ++ (chars "www." ++ (chars "xiaohongshu.com/" ++
              chars "explore/")) := by decide
      simp [canonU, e0, List.append_assoc]
    rw [e1]
    unfold Scraper.canonicalAt
    simp only [dropLit_append]
    unfold Scraper.afterScheme
    simp only [dropLit_append]
    unfold Scraper.hostTail
    simp only [dropLit_append]
    unfold Scraper.pathTail
    simp only [dropLit_append]
    simp [List.takeWhile_cons, hc]

/-- Claim C1, counterexample: the claim states that a text with trailing
characters after the canonical URL yields nothing, but `extract_xhs_url`
returns the whole input — the tier-2 regex is only anchored at the start
(`^` with no `$`), so it is a prefix test, not a whole-input test. -/
theorem c1_counterexample :
    Scraper.searchXhslink (chars "https://www.xiaohongshu.com/explore/x tail") = none ∧
    Scraper.extract_xhs_url (chars "https://www.xiaohongshu.com/explore/x tail")
      = some (chars "https://www.xiaohongshu.com/explore/x tail") := by
  decide

/-- Claim C1 (amended): the canonical rule returns the input unchanged
exactly when the input STARTS with the pattern
`http(s)://[www.]xiaohongshu.com/(explore|discovery/item)/<nonspace-token>`:
a text that is exactly such a URL is returned unchanged, a leading space
yields nothing, and — contrary to the original claim — trailing characters
after the URL do not prevent recognition: the whole input, trailing
characters included, is returned. -/
theorem c1_amended_trailing_accepted (tok suf : Str) (h1 : tok ≠ [])
    (h2 : ∀ c ∈ tok, nonspace c = true)
    (h3 : Scraper.searchXhslink (canonU tok ++ suf) = none)
    (h4 : Scraper.searchXhslink (' ' :: canonU tok) = none) :
    Scraper.extract_xhs_url (canonU tok ++ suf) = some (canonU tok ++ suf) ∧
    Scraper.extract_xhs_url (' ' :: canonU tok) = none := by
  constructor
  · unfold Scraper.extract_xhs_url
    rw [h3]
    simp [canonicalAt_canonU tok suf h1 h2]
  · unfold Scraper.extract_xhs_url
    rw [h4]
    have hsp : Scraper.canonicalAt (' ' :: canonU tok) = false := rfl
    simp [hsp]

/-- Witness for C1's amended theorem at token `"abc"` and suffix `" more"`
(the first conjunct shows trailing characters accepted, the second the
leading-space rejection). -/
theorem c1_amended_trailing_accepted_witness :
    Scraper.extract_xhs_url (canonU (chars "abc") ++ chars " more")
      = some (canonU (chars "abc") ++ chars " more") ∧
    Scraper.extract_xhs_url (' ' :: canonU (chars "abc")) = none :=
  c1_amended_trailing_accepted (chars "abc") (chars " more")
    (by decide) (by decide) (by decide) (by decide)

/-- Claim C5, evaluation at the failing input: on a document whose state
blob decodes with `imageList: 5`, both pipelines raise an uncaught
`TypeError` (`for img in images_list` over a non-iterable), contradicting
the contract that extraction never raises on malformed data. -/
theorem c5_crash_on_nonlist_imageList :
    Scraper.extract docC5 = .error () ∧ XhsScraper.extract docC5 = .error () :=
  ⟨rfl, rfl⟩

/-- Claim C7, evaluation at the failing input: `extract_xhs_url` accepts
the canonical URL, but the CLI's recognition rejects it (its tier-2
pattern, written with doubled backslashes inside a raw string, demands
literal backslash characters in the URL), so the CLI exits non-zero. -/
theorem c7_cli_rejects_canonical :
    Scraper.extract_xhs_url (chars "https://www.xiaohongshu.com/explore/abc")
      = some (chars "https://www.xiaohongshu.com/explore/abc") ∧
    XhsScraper.cliRecognize (chars "https://www.xiaohongshu.com/explore/abc") = none ∧
    ∀ fetch : Str → Option RawDocument,
      XhsScraper.cli_main fetch (chars "https://www.xiaohongshu.com/explore/abc")
        = XhsScraper.CliOut.exitErr := by
  refine ⟨by decide, by decide, fun fetch => rfl⟩

/-- Claim C10: whatever `extract_xhs_url` returns is a contiguous
substring of the input; in the short-link case it is the matched
xhslink.com substring and contains no whitespace, and in the canonical
case it is the whole input. -/
theorem c10_returned_url_is_substring (t u : Str)
    (h : Scraper.extract_xhs_url t = some u) :
    (∃ p s, t = p ++ u ++ s) ∧
    (∀ m, Scraper.searchXhslink t = some m → u = m ∧ ∀ c ∈ u, nonspace c = true) ∧
    (Scraper.searchXhslink t = none → u = t) := by
  unfold Scraper.extract_xhs_url at h
  cases hs : Scraper.searchXhslink t with
  | some m =>
    rw [hs] at h
    have hum : u = m := by simpa using h.symm
    subst hum
    obtain ⟨⟨p, s, hps⟩, hns⟩ := searchXhslink_spec t u hs
    refine ⟨⟨p, s, hps⟩, fun m' hm' => ?_, fun hnone => ?_⟩
    · exact ⟨Option.some.inj hm', hns⟩
    · exact absurd hnone (by simp)
  | none =>
    rw [hs] at h
    by_cases hc : Scraper.canonicalAt t = true
    · rw [if_pos hc] at h
      have hut : u = t := by simpa using h.symm
      subst hut
      exact ⟨⟨[], [], by simp⟩, fun m' hm' => absurd hm' (by simp), fun _ => rfl⟩
    · rw [if_neg hc] at h
      exact absurd h (by simp)

/-- Witness for C10 at a text carrying an embedded short link. -/
theorem c10_returned_url_is_substring_witness :
    (∃ p s, chars "go https://xhslink.com/Ab now"
        = p ++ chars "https://xhslink.com/Ab" ++ s) ∧
    (∀ m, Scraper.searchXhslink (chars "go https://xhslink.com/Ab now") = some m →
      chars "https://xhslink.com/Ab" = m ∧
      ∀ c ∈ chars "https://xhslink.com/Ab", nonspace c = true) ∧
    (Scraper.searchXhslink (chars "go https://xhslink.com/Ab now") = none →
      chars "https://xhslink.com/Ab" = chars "go https://xhslink.com/Ab now") :=
  c10_returned_url_is_substring (chars "go https://xhslink.com/Ab now")
    (chars "https://xhslink.com/Ab") (by decide)



/-- Claim C6: the API wrapper raises `HTTPException(400)` exactly when the
URL Recognizer returns nothing, raises `HTTPException(500)` exactly when
the fetch failed (`scrape_xhs` returned `None`), and an extraction whose
fields are all empty is returned as a successful response. -/
theorem c6_api_error_signals (fetch : Str → Option RawDocument) (input : Str) :
    (Main.scrape_content fetch input = .clientError ↔
      Scraper.extract_xhs_url input = none) ∧
    (Main.scrape_content fetch input = .serverError ↔
      ∃ u, Scraper.extract_xhs_url input = some u ∧ fetch u = none) ∧
    (∀ u doc, Scraper.extract_xhs_url input = some u → fetch u = some doc →
      Scraper.extract doc = .ok ⟨jempty, jempty, []⟩ →
      Main.scrape_content fetch input = .success ⟨jempty, jempty, []⟩) := by
  cases hu : Scraper.extract_xhs_url input with
  | none =>
    have hs : Main.scrape_content fetch input = .clientError := by
      simp [Main.scrape_content, hu]
    refine ⟨by simp [hs, hu], ?_, ?_⟩
    · rw [hs]
      constructor
      · intro h
        exact Main.ApiOut.noConfusion h
      · rintro ⟨u, huu, _⟩
        exact Option.noConfusion huu
    · intro u doc hu' _ _
      exact Option.noConfusion hu'
  | some url =>
    cases hf : fetch url with
    | none =>
      have hs : Main.scrape_content fetch input = .serverError := by
        simp [Main.scrape_content, Scraper.scrape_xhs, hu, hf]
      refine ⟨?_, ?_, ?_⟩
      · rw [hs]
        constructor
        · intro h
          exact Main.ApiOut.noConfusion h
        · intro h
          exact Option.noConfusion h
      · rw [hs]
        constructor
        · intro _
          exact ⟨url, rfl, hf⟩
        · intro _
          rfl
      · intro u doc hu' hd _
        rw [← Option.some.inj hu', hf] at hd
        exact Option.noConfusion hd
    | some doc =>
      cases he : Scraper.extract doc with
      | error e =>
        have hs : Main.scrape_content fetch input = .crash := by
          simp [Main.scrape_content, Scraper.scrape_xhs, hu, hf, he]
        refine ⟨?_, ?_, ?_⟩
        · rw [hs]
          constructor
          · intro h
            exact Main.ApiOut.noConfusion h
          · intro h
            exact Option.noConfusion h
        · rw [hs]
          constructor
          · intro h
            exact Main.ApiOut.noConfusion h
          · rintro ⟨u, huu, hfu⟩
            rw [← Option.some.inj huu, hf] at hfu
            exact Option.noConfusion hfu
        · intro u doc' hu' hd he'
          rw [← Option.some.inj hu', hf] at hd
          rw [← Option.some.inj hd, he] at he'
          exact Except.noConfusion he'
      | ok r =>
        have hs : Main.scrape_content fetch input = .success r := by
          simp [Main.scrape_content, Scraper.scrape_xhs, hu, hf, he]
        refine ⟨?_, ?_, ?_⟩
        · rw [hs]
          constructor
          · intro h
            exact Main.ApiOut.noConfusion h
          · intro h
            exact Option.noConfusion h
        · rw [hs]
          constructor
          · intro h
            exact Main.ApiOut.noConfusion h
          · rintro ⟨u, huu, hfu⟩
            rw [← Option.some.inj huu, hf] at hfu
            exact Option.noConfusion hfu
        · intro u doc' hu' hd he'
          rw [← Option.some.inj hu', hf] at hd
          rw [← Option.some.inj hd, he] at he'
          rw [hs, Except.ok.inj he']

/-- Witness for C6: with a failing fetch, an unrecognized text yields the
client error; with a fetch returning an empty document, a canonical URL
yields a successful response with all-empty fields. -/
theorem c6_api_error_signals_witness :
    Main.scrape_content (fun _ => none) (chars "no link here") = .clientError ∧
    Main.scrape_content (fun _ => some emptyDoc)
        (chars "https://www.xiaohongshu.com/explore/a")
      = .success ⟨jempty, jempty, []⟩ :=
  ⟨(c6_api_error_signals (fun _ => none) (chars "no link here")).1.mpr (by decide),
   (c6_api_error_signals (fun _ => some emptyDoc)
       (chars "https://www.xiaohongshu.com/explore/a")).2.2
     (chars "https://www.xiaohongshu.com/explore/a") emptyDoc (by decide) rfl rfl⟩

/-- When the structured tier leaves all three variables at their defaults,
`scraper.py`'s pipeline returns exactly the HTML-only result. -/
theorem scraper_extract_structEmpty (doc : RawDocument)
    (hst : structuredTier doc.scripts = .fields jempty jempty []) :
    Scraper.extract doc = .ok (Scraper.htmlOnly doc) := by
  unfold Scraper.extract
  rw [hst]
  rfl

/-- Claim C2, counterexample: on a document whose blob decodes with
`note = {title: "T", desc: "D", imageList: ["x"]}` plus one
`og:image` tag, the structured tier assigns title and body, then the
`AttributeError` raised by `"x".get(…)` inside the image comprehension is
caught — so `title`/`body` keep their structured values while the images
fall through to the Open Graph tier.  The tier is NOT atomic for errors
raised while reading the structured record. -/
theorem c2_counterexample :
    Scraper.extract docC2
      = .ok ⟨.jstr (chars "T"), .jstr (chars "D"), [.jstr (chars "a")]⟩ := by
  decide

/-- Claim C2 (amended): the structured tier is atomic for JSON parse
failures and for absent keys along the `note.noteDetailMap.default.note`
path (including a non-mapping intermediate value): in all those cases the
whole result is the HTML-only result for every field.  (It is not atomic
for exceptions raised after `title`/`desc` were read — see the
counterexample.) -/
theorem c2_amended_atomic_for_parse_and_keys (doc : RawDocument)
    (h : ∀ s, findInitScript doc.scripts = some s →
      extractStateJson s = none ∨
      ∃ p, extractStateJson s = some p ∧
        (json_loads p = none ∨
         ∃ j, json_loads p = some j ∧
           (notePathE j = .error () ∨ notePathE j = .ok (Json.jobj .nil)))) :
    Scraper.extract doc = .ok (Scraper.htmlOnly doc) := by
  have hst : structuredTier doc.scripts = .fields jempty jempty [] := by
    rcases hf : findInitScript doc.scripts with _ | s
    · simp [structuredTier, hf]
    · rcases h s hf with he | ⟨p, hp, hrest⟩
      · simp [structuredTier, hf, he]
      · rcases hrest with hj | ⟨j, hj, hn⟩
        · simp [structuredTier, hf, hp, hj]
        · rcases hn with hn | hn
          · simp [structuredTier, hf, hp, hj, hn]
          · simp [structuredTier, hf, hp, hj, hn, pyGetD, JObj.lookupLast,
              iterElems, JArr.toList, imgComp]
  exact scraper_extract_structEmpty doc hst

/-- Witness for C2's amended theorem: a malformed blob next to a
`<title>` tag produces the pure HTML result. -/
theorem c2_amended_atomic_for_parse_and_keys_witness :
    Scraper.extract docC2W = .ok (Scraper.htmlOnly docC2W) :=
  c2_amended_atomic_for_parse_and_keys docC2W (fun s hs => by
    have h0 : findInitScript docC2W.scripts = some scriptBad := by decide
    rw [h0] at hs
    rw [← Option.some.inj hs]
    exact Or.inr ⟨chars "\x7bbad\x7d", by decide, Or.inl (by decide)⟩)

/-- Claim C3, counterexample: `scraper.py`'s Open Graph image tier is a
plain list comprehension with no de-duplication; a document with two
`<meta property="og:image" content="a">` tags yields
`image_urls == ["a", "a"]`, not the claimed `["a"]`. -/
theorem c3_counterexample :
    Scraper.extract docC3
      = .ok ⟨jempty, jempty, [.jstr (chars "a"), .jstr (chars "a")]⟩ := by
  decide

/-- Claim C3 (amended): the de-duplication-by-first-occurrence of Open
Graph image values holds in the `xhs_scraper.py` pipeline (whose loop
checks `content not in image_urls`), but not in the `scraper.py`
pipeline, which keeps duplicates.  For the former: a document whose
structured tier produced nothing, with no `og:image` metas by `name` and
exactly two `og:image` metas by `property` carrying the same non-empty
content `a`, yields `image_urls = [a]`, with title and body from the HTML
fallbacks. -/
theorem c3_amended_dedup_in_xhs_pipeline (doc : RawDocument) (a : Str) (m1 m2 : HTag)
    (hst : structuredTier doc.scripts = .fields jempty jempty [])
    (hn : metasWith doc (chars "name") (chars "og:image") = [])
    (hp : metasWith doc (chars "property") (chars "og:image") = [m1, m2])
    (hc1 : tagGet m1 (chars "content") = some a)
    (hc2 : tagGet m2 (chars "content") = some a)
    (ha : a ≠ []) :
    XhsScraper.extract doc
      = .ok ⟨XhsScraper.htmlTitle doc, XhsScraper.htmlBody doc, [Json.jstr a]⟩ := by
  have hog : XhsScraper.imagesFB doc = [Json.jstr a] := by
    have hcol : XhsScraper.ogCollect [m1, m2] [] = [Json.jstr a] := by
      simp [XhsScraper.ogCollect, hc1, hc2, ha]
    simp [XhsScraper.imagesFB, hn, hp, hcol]
  unfold XhsScraper.extract
  rw [hst]
  simp only [hog]
  rfl

/-- Witness for C3's amended theorem on a concrete document with a title
tag and duplicated `og:image` property metas. -/
theorem c3_amended_dedup_in_xhs_pipeline_witness :
    XhsScraper.extract docC3W
      = .ok ⟨XhsScraper.htmlTitle docC3W, XhsScraper.htmlBody docC3W,
          [Json.jstr (chars "a")]⟩ :=
  c3_amended_dedup_in_xhs_pipeline docC3W (chars "a") ogTagA ogTagA
    (by decide) (by decide) (by decide) (by decide) (by decide) (by decide)

/-- A non-empty Python string is truthy. -/
theorem jtruthy_jstr_of_ne (u : Str) (h : u ≠ []) : jtruthy (Json.jstr u) = true := by
  cases u with
  | nil => exact absurd rfl h
  | cons c cs => rfl

/-- Claim C4: on a document containing only a valid state blob whose note
record has title `T`, desc `D` and
`imageList = [{url_default: u1}, {url: u2}, {}]` (with `u1`, `u2`
non-empty), extraction returns `{title: T, body: D, image_urls: [u1, u2]}`:
each entry contributes `url_default` if non-empty, else `url` if
non-empty, in order, and the empty-mapping entry is dropped. -/
theorem c4_structured_images (T D u1 u2 : Str) (scripts : List Str) (s p : Str)
    (h1 : u1 ≠ []) (h2 : u2 ≠ [])
    (hf : findInitScript scripts = some s)
    (he : extractStateJson s = some p)
    (hj : json_loads p = some (c4state T D u1 u2)) :
    Scraper.extract ⟨scripts, none, none, [], [], [], none⟩ =
      .ok ⟨.jstr T, .jstr D, [.jstr u1, .jstr u2]⟩ := by
  have ht1 := jtruthy_jstr_of_ne u1 h1
  have ht2 := jtruthy_jstr_of_ne u2 h2
  have hnp : notePathE (c4state T D u1 u2) = .ok (c4note T D u1 u2) := rfl
  have hne1 : chars "url" ≠ chars "url_default" := by decide
  have hne1b : chars "url_default" ≠ chars "url" := by decide
  have htf : jtruthy (Json.jstr ([] : Str)) = false := rfl
  have hne2 : chars "imageList" ≠ chars "title" := by decide
  have hne3 : chars "desc" ≠ chars "title" := by decide
  have hne4 : chars "imageList" ≠ chars "desc" := by decide
  have hne5 : chars "title" ≠ chars "desc" := by decide
  have hcomp : imgComp [.jobj (.cons (chars "url_default") (.jstr u1) .nil),
      .jobj (.cons (chars "url") (.jstr u2) .nil), .jobj .nil]
      = .ok [.jstr u1, .jstr u2] := by
    simp [imgComp, pyGet, pyGetD, JObj.lookupLast, jtruthyO, ht1, ht2, jempty, hne1,
      hne1b, htf, h1, h2]
  have hst : structuredTier scripts
      = .fields (.jstr T) (.jstr D) [.jstr u1, .jstr u2] := by
    simp [structuredTier, hf, he, hj, hnp, c4note, pyGetD, JObj.lookupLast,
      iterElems, JArr.toList, hcomp, List.filter, ht1, ht2, hne2, hne3, hne4, hne5]
  unfold Scraper.extract
  dsimp only
  rw [hst]
  simp [ite_self, bodyFromMeta, metasWith]

/-- Witness for C4 on the concrete blob `scriptC4`. -/
theorem c4_structured_images_witness :
    Scraper.extract ⟨[scriptC4], none, none, [], [], [], none⟩ =
      .ok ⟨.jstr (chars "T"), .jstr (chars "D"),
        [.jstr (chars "u1"), .jstr (chars "u2")]⟩ :=
  c4_structured_images (chars "T") (chars "D") (chars "u1") (chars "u2")
    [scriptC4] scriptC4
    (chars "\x7b\"note\":\x7b\"noteDetailMap\":\x7b\"default\":\x7b\"note\":\x7b\"title\":\"T\",\"desc\":\"D\",\"imageList\":[\x7b\"url_default\":\"u1\"\x7d,\x7b\"url\":\"u2\"\x7d,\x7b\x7d]\x7d\x7d\x7d\x7d\x7d")
    (by decide) (by decide) (by decide) (by decide) (by decide)

/-- Claim C8, counterexample: on a document with no state blob and two
identical `og:image` property metas, the two pipelines disagree —
`scraper.py` keeps the duplicate, `xhs_scraper.py` de-duplicates. -/
theorem c8_counterexample :
    Scraper.extract docC8
        = .ok ⟨jempty, jempty, [.jstr (chars "a"), .jstr (chars "a")]⟩ ∧
    XhsScraper.extract docC8 = .ok ⟨jempty, jempty, [.jstr (chars "a")]⟩ ∧
    Scraper.extract docC8 ≠ XhsScraper.extract docC8 := by
  refine ⟨by decide, by decide, by decide⟩

/-- Claim C8 (amended): the two pipelines are NOT equivalent in general
(they differ in og:image de-duplication and in the extra `<h1>`,
description-div and `<img>` fallbacks of `xhs_scraper.py`); they do agree
on every document whose structured tier populates all three fields with
truthy values. -/
theorem c8_amended_agree_when_structured_full (doc : RawDocument) (t b : Json)
    (i : List Json) (hst : structuredTier doc.scripts = .fields t b i)
    (ht : jtruthy t = true) (hb : jtruthy b = true) (hi : i ≠ []) :
    Scraper.extract doc = XhsScraper.extract doc := by
  unfold Scraper.extract XhsScraper.extract
  rw [hst]
  simp [ht, hb, hi]

/-- Witness for C8's amended theorem on a document whose blob supplies
title, body and two images. -/
theorem c8_amended_agree_when_structured_full_witness :
    Scraper.extract docC8W = XhsScraper.extract docC8W :=
  c8_amended_agree_when_structured_full docC8W
    (.jstr (chars "T")) (.jstr (chars "D"))
    [.jstr (chars "u1"), .jstr (chars "u2")]
    (by decide) (by decide) (by decide) (by decide)

/-- Whatever the structured tier assigns to `image_urls` has passed the
`if url` filter, so it contains no empty string. -/
theorem structuredTier_no_empty_image (scripts : List Str) (t b : Json)
    (i : List Json) (h : structuredTier scripts = .fields t b i) :
    Json.jstr [] ∉ i := by
  have hempty : Json.jstr [] ∉ ([] : List Json) := by simp
  have hfil : ∀ l : List Json, Json.jstr [] ∉ l.filter jtruthy := by
    intro l hm
    exact absurd (List.mem_filter.mp hm).2 (by decide)
  unfold structuredTier at h
  cases h1 : findInitScript scripts with
  | none =>
    simp [h1] at h
    rcases h with ⟨-, -, hi⟩
    subst hi
    exact hempty
  | some s =>
  simp only [h1] at h
  cases h2 : extractStateJson s with
  | none =>
    simp [h2] at h
    rcases h with ⟨-, -, hi⟩
    subst hi
    exact hempty
  | some payload =>
  simp only [h2] at h
  cases h3 : json_loads payload with
  | none =>
    simp [h3] at h
    rcases h with ⟨-, -, hi⟩
    subst hi
    exact hempty
  | some j =>
  simp only [h3] at h
  cases h4 : notePathE j with
  | error e =>
    simp [h4] at h
    rcases h with ⟨-, -, hi⟩
    subst hi
    exact hempty
  | ok nd =>
  simp only [h4] at h
  cases h5 : pyGetD nd (chars "title") jempty with
  | error e =>
    simp [h5] at h
    rcases h with ⟨-, -, hi⟩
    subst hi
    exact hempty
  | ok t0 =>
  simp only [h5] at h
  cases h6 : pyGetD nd (chars "desc") jempty with
  | error e =>
    simp [h6] at h
    rcases h with ⟨-, -, hi⟩
    subst hi
    exact hempty
  | ok b0 =>
  simp only [h6] at h
  cases h7 : pyGetD nd (chars "imageList") (Json.jarr .nil) with
  | error e =>
    simp [h7] at h
    rcases h with ⟨-, -, hi⟩
    subst hi
    exact hempty
  | ok il =>
  simp only [h7] at h
  cases h8 : iterElems il with
  | error e =>
    simp [h8] at h
  | ok elems =>
  simp only [h8] at h
  cases h9 : imgComp elems with
  | error e =>
    simp [h9] at h
    rcases h with ⟨-, -, hi⟩
    subst hi
    exact hempty
  | ok imgs =>
  simp [h9] at h
  rcases h with ⟨-, -, hi⟩
  subst hi
  exact hfil imgs

/-- A `filterMap` that keeps only non-empty attribute values never
contains the empty string. -/
theorem filterMap_attr_no_empty (tags : List HTag) (k : Str) :
    Json.jstr [] ∉ tags.filterMap (fun t =>
      match tagGet t k with
      | some c => if c = [] then none else some (Json.jstr c)
      | none => none) := by
  intro hm
  obtain ⟨t, _, ht⟩ := List.mem_filterMap.mp hm
  cases hc : tagGet t k with
  | none => simp [hc] at ht
  | some c =>
    by_cases h0 : c = [] <;> simp [hc, h0] at ht

/-- `scraper.py`'s image fallback keeps only truthy values. -/
theorem scraper_imagesFB_no_empty (doc : RawDocument) :
    Json.jstr [] ∉ Scraper.imagesFB doc := by
  unfold Scraper.imagesFB
  dsimp only
  split
  · exact filterMap_attr_no_empty (preloadLinks doc) (chars "href")
  · exact filterMap_attr_no_empty (Scraper.ogTags doc) (chars "content")

/-- The og:image collection loop preserves the no-empty-string invariant. -/
theorem ogCollect_no_empty (tags : List HTag) :
    ∀ acc, Json.jstr [] ∉ acc → Json.jstr [] ∉ XhsScraper.ogCollect tags acc := by
  induction tags with
  | nil =>
    intro acc h
    exact h
  | cons t rest ih =>
    intro acc h
    unfold XhsScraper.ogCollect
    split
    next c heq =>
      split
      next hc => exact ih acc h
      next hc =>
        split
        next hmem => exact ih acc h
        next hmem =>
          apply ih
          intro hm
          rcases List.mem_append.mp hm with hm | hm
          · exact h hm
          · have h2 : Json.jstr ([] : Str) = Json.jstr c := by simpa using hm
            exact hc (by injection h2 with h3; exact h3.symm)
    next heq => exact ih acc h

/-- The preload-link collection loop preserves the invariant. -/
theorem linkCollect_no_empty (tags : List HTag) :
    ∀ acc, Json.jstr [] ∉ acc → Json.jstr [] ∉ XhsScraper.linkCollect tags acc := by
  induction tags with
  | nil =>
    intro acc h
    exact h
  | cons t rest ih =>
    intro acc h
    unfold XhsScraper.linkCollect
    split
    next c heq =>
      split
      next hc => exact ih acc h
      next hc =>
        split
        next hmem => exact ih acc h
        next hmem =>
          apply ih
          intro hm
          rcases List.mem_append.mp hm with hm | hm
          · exact h hm
          · have h2 : Json.jstr ([] : Str) = Json.jstr c := by simpa using hm
            exact hc (by injection h2 with h3; exact h3.symm)
    next heq => exact ih acc h

/-- The `<img>` collection loop preserves the invariant. -/
theorem imgCollect_no_empty (tags : List HTag) :
    ∀ acc, Json.jstr [] ∉ acc → Json.jstr [] ∉ XhsScraper.imgCollect tags acc := by
  induction tags with
  | nil =>
    intro acc h
    exact h
  | cons t rest ih =>
    intro acc h
    unfold XhsScraper.imgCollect
    split
    next v heq =>
      split
      next hcond =>
        split
        next h2 =>
          apply ih
          intro hm
          rcases List.mem_append.mp hm with hm | hm
          · exact h hm
          · have h3 : Json.jstr ([] : Str) = Json.jstr v := by simpa using hm
            exact hcond.1 (by injection h3 with h4; exact h4.symm)
        next h2 => exact ih acc h
      next hcond => exact ih acc h
    next heq => exact ih acc h

/-- `xhs_scraper.py`'s three-stage image fallback never produces an empty
string. -/
theorem xhs_imagesFB_no_empty (doc : RawDocument) :
    Json.jstr [] ∉ XhsScraper.imagesFB doc := by
  unfold XhsScraper.imagesFB
  dsimp only
  repeat' split
  all_goals
    first
    | exact imgCollect_no_empty doc.imgs [] (by simp)
    | exact linkCollect_no_empty (preloadLinks doc) [] (by simp)
    | exact ogCollect_no_empty _ [] (by simp)

/-- Claim C9: in both pipelines, whenever extraction returns a result, its
`image_urls` never contains an empty-string entry, whichever tier
produced it. -/
theorem c9_no_empty_image_entries (doc : RawDocument) :
    (∀ r, Scraper.extract doc = .ok r → Json.jstr [] ∉ r.image_urls) ∧
    (∀ r, XhsScraper.extract doc = .ok r → Json.jstr [] ∉ r.image_urls) := by
  constructor
  · intro r h
    unfold Scraper.extract at h
    cases hst : structuredTier doc.scripts with
    | crash =>
      rw [hst] at h
      exact Except.noConfusion h
    | fields t0 b0 i0 =>
      rw [hst] at h
      have hr := Except.ok.inj h
      rw [← hr]
      dsimp only
      by_cases hi : i0 = []
      · rw [if_pos hi]
        exact scraper_imagesFB_no_empty doc
      · rw [if_neg hi]
        exact structuredTier_no_empty_image doc.scripts t0 b0 i0 hst
  · intro r h
    unfold XhsScraper.extract at h
    cases hst : structuredTier doc.scripts with
    | crash =>
      rw [hst] at h
      exact Except.noConfusion h
    | fields t0 b0 i0 =>
      rw [hst] at h
      have hr := Except.ok.inj h
      rw [← hr]
      dsimp only
      by_cases hi : i0 = []
      · rw [if_pos hi]
        exact xhs_imagesFB_no_empty doc
      · rw [if_neg hi]
        exact structuredTier_no_empty_image doc.scripts t0 b0 i0 hst

/-- Witness for C9 on a document whose images come from the og:image
tier. -/
theorem c9_no_empty_image_entries_witness :
    Json.jstr [] ∉
      (ExtractionResult.mk jempty jempty [Json.jstr (chars "a")]).image_urls :=
  (c9_no_empty_image_entries docC9W).1 ⟨jempty, jempty, [Json.jstr (chars "a")]⟩
    (by decide)
